import Mathlib

/-!
Shallow embedding of the single-file SMTP email relay service (`src/main.py`)
and proofs of the specification's claims about it.

The Python source is a FastAPI app with one POST endpoint `/send-email`.
We embed:

* the pydantic request/response models as Lean structures over `String`,
  `Int` and `List String`;
* the `send_email_smtp` transport as a pure function from an `SMTPWorld`
  (which records, for each network step, whether the environment lets it
  succeed or makes it raise) to a success boolean plus a trace of the
  SMTP events that actually completed;
* the `send_email` handler as a pure function returning the HTTP outcome
  (a 200 body or an HTTPException status/detail pair) together with the
  transport trace;
* Python's `int(str)` conversion (used on `SMTP_PORT` inside the
  transport's try block) as `pythonInt`;
* Python's `datetime.isoformat()` as `isoformat` over an explicit
  datetime record.

Effects are made explicit: exceptions of a modelled step never escape the
transport because the source wraps everything in `try/except Exception`
and returns `False`; we embed exactly that control flow.
-/

/-! ## Data model (pydantic classes from `src/main.py`) -/

/-- `CustomerDetails` from `src/main.py` (name, email, phone).
The `email` field is an `EmailStr`; validation happens at intake. -/
structure CustomerDetails where
  name : String
  email : String
  phone : String
  deriving DecidableEq

/-- `BookingDetails` from `src/main.py` (room, dates). -/
structure BookingDetails where
  room : String
  dates : String
  deriving DecidableEq

/-- `EmailSettings` from `src/main.py`: five mandatory string fields.
`SMTP_PORT` is carried as text and converted with `int()` in the transport. -/
structure EmailSettings where
  SMTP_SERVER : String
  SMTP_PORT : String
  SMTP_USERNAME : String
  SMTP_PASSWORD : String
  SMTP_FROM_NAME : String
  deriving DecidableEq

/-- `SendEmailRequest` from `src/main.py`. `recipients` is `List[EmailStr]`
(the address-syntax validation is modelled at intake, see `processRequest`). -/
structure SendEmailRequest where
  recipients : List String
  payment_id : Int
  timestamp : Int
  customer_details : CustomerDetails
  booking_details : BookingDetails
  HTML_PAGE : String
  email_settings : EmailSettings
  deriving DecidableEq

/-- `EmailResponse` from `src/main.py`. -/
structure EmailResponse where
  message : String
  sent_to : List String
  timestamp : String
  deriving DecidableEq

/-! ## Python `int()` on strings

`send_email_smtp` evaluates `int(email_settings.SMTP_PORT)` inside its
`try` block.  `pythonInt` models CPython's `int(str)`: optional surrounding
whitespace, an optional single sign, then one or more decimal digits where
a single underscore may separate two digits.  Anything else raises
`ValueError`, modelled as `none`. -/

/-- ASCII decimal digit test. -/
def isAsciiDigit (c : Char) : Bool :=
  '0' ≤ c && c ≤ '9'

/-- Whitespace stripped by Python's `str.strip()` (ASCII fragment). -/
def isPySpace (c : Char) : Bool :=
  c = ' ' || c = '\t' || c = '\n' || c = '\r' || c = '\x0b' || c = '\x0c'

/-- Digit accumulator after the first digit: a digit extends the value, an
underscore must be followed by a digit, anything else is a `ValueError`. -/
def digitsLoop : List Char → Nat → Option Nat
  | [], acc => some acc
  | c :: rest, acc =>
    if isAsciiDigit c then digitsLoop rest (acc * 10 + (c.toNat - 48))
    else if c = '_' then
      match rest with
      | d :: rest2 =>
        if isAsciiDigit d then digitsLoop rest2 (acc * 10 + (d.toNat - 48))
        else none
      | [] => none
    else none

/-- An unsigned digit run: the first character must be a digit. -/
def parseUDigits : List Char → Option Nat
  | c :: rest => if isAsciiDigit c then digitsLoop rest (c.toNat - 48) else none
  | [] => none

/-- Python's `int(s)` for a string `s`: `some n` on success, `none` when it
raises `ValueError`. -/
def pythonInt (s : String) : Option Int :=
  let cs := ((s.toList.dropWhile isPySpace).reverse.dropWhile isPySpace).reverse
  match cs with
  | '+' :: rest => (parseUDigits rest).map Int.ofNat
  | '-' :: rest => (parseUDigits rest).map (fun n => -(Int.ofNat n))
  | rest => (parseUDigits rest).map Int.ofNat

/-! ## Message builder (lines 62–68 of `src/main.py`) -/

/-- The MIME multipart message as constructed by `send_email_smtp`:
subject, From and To headers, and the single HTML body part. -/
structure MimeMessage where
  subject : String
  fromHeader : String
  toHeader : String
  htmlBody : String
  deriving DecidableEq

/-- Message construction in `send_email_smtp`:
`msg['Subject'] = subject`, `msg['From'] = f"{SMTP_FROM_NAME} <{SMTP_USERNAME}>"`,
`msg['To'] = "undisclosed-recipients:;"`, body = the HTML part. -/
def builtMessage (subject html : String) (s : EmailSettings) : MimeMessage :=
  { subject := subject
    fromHeader := s.SMTP_FROM_NAME ++ " <" ++ s.SMTP_USERNAME ++ ">"
    toHeader := "undisclosed-recipients:;"
    htmlBody := html }

/-! ## SMTP transport (lines 60–81 of `src/main.py`) -/

/-- Completed network-level steps of an SMTP session.  `connect` is the
socket connection made by the `smtplib.SMTP(host, port)` constructor,
`close` is the QUIT/close performed by the context manager's exit. -/
inductive SMTPEvent where
  | connect (host : String) (port : Int)
  | starttls
  | login (user pass : String)
  | sendmail (fromAddr : String) (toAddrs : List String) (msg : MimeMessage)
  | close
  deriving DecidableEq

/-- Which SMTP steps the outside world lets succeed on this call; a `false`
field means the corresponding library call raises an exception. -/
structure SMTPWorld where
  connectOk : Bool
  starttlsOk : Bool
  loginOk : Bool
  sendOk : Bool
  deriving DecidableEq

/-- `send_email_smtp` from `src/main.py`: builds the MIME message, converts
`SMTP_PORT` with `int()`, opens the connection (`with smtplib.SMTP(...)`),
then STARTTLS, login, sendmail.  Every exception is caught by the
`except Exception` clause and turned into `False`; on any exit path after a
successful connect the context manager closes the connection.  When
`SMTP_SERVER` is the empty string the `smtplib.SMTP('')` constructor does
not connect and the first command raises `SMTPServerDisconnected`, so no
network event happens.  Returns the success boolean together with the trace
of completed events. -/
def send_email_smtp (world : SMTPWorld) (to_emails : List String)
    (subject html_content : String) (email_settings : EmailSettings) :
    Bool × List SMTPEvent :=
  let msg := builtMessage subject html_content email_settings
  match pythonInt email_settings.SMTP_PORT with
  | none => (false, [])
  | some port =>
    if email_settings.SMTP_SERVER.isEmpty then (false, [])
    else if !world.connectOk then (false, [])
    else if !world.starttlsOk then
      (false, [SMTPEvent.connect email_settings.SMTP_SERVER port, SMTPEvent.close])
    else if !world.loginOk then
      (false, [SMTPEvent.connect email_settings.SMTP_SERVER port, SMTPEvent.starttls,
               SMTPEvent.close])
    else if !world.sendOk then
      (false, [SMTPEvent.connect email_settings.SMTP_SERVER port, SMTPEvent.starttls,
               SMTPEvent.login email_settings.SMTP_USERNAME email_settings.SMTP_PASSWORD,
               SMTPEvent.close])
    else
      (true, [SMTPEvent.connect email_settings.SMTP_SERVER port, SMTPEvent.starttls,
              SMTPEvent.login email_settings.SMTP_USERNAME email_settings.SMTP_PASSWORD,
              SMTPEvent.sendmail email_settings.SMTP_USERNAME to_emails msg,
              SMTPEvent.close])

/-! ## Python `datetime.now().isoformat()` -/

/-- A Python `datetime` value (naive, no tzinfo), as produced by
`datetime.now()`. -/
structure PyDateTime where
  year : Nat
  month : Nat
  day : Nat
  hour : Nat
  minute : Nat
  second : Nat
  microsecond : Nat
  deriving DecidableEq

/-- Two-digit zero-padded decimal rendering (`%02d` for values below 100). -/
def twoDigits (n : Nat) : List Char :=
  [Nat.digitChar (n / 10), Nat.digitChar (n % 10)]

/-- Four-digit zero-padded decimal rendering (`%04d` for values below 10000). -/
def fourDigits (n : Nat) : List Char :=
  [Nat.digitChar (n / 1000), Nat.digitChar (n / 100 % 10),
   Nat.digitChar (n / 10 % 10), Nat.digitChar (n % 10)]

/-- Six-digit zero-padded decimal rendering (`%06d` for values below 1000000). -/
def sixDigits (n : Nat) : List Char :=
  [Nat.digitChar (n / 100000), Nat.digitChar (n / 10000 % 10),
   Nat.digitChar (n / 1000 % 10), Nat.digitChar (n / 100 % 10),
   Nat.digitChar (n / 10 % 10), Nat.digitChar (n % 10)]

/-- Character list of `datetime.isoformat()`: `YYYY-MM-DDTHH:MM:SS` with a
`.ffffff` microsecond suffix exactly when the microsecond is nonzero. -/
def isoformatChars (dt : PyDateTime) : List Char :=
  fourDigits dt.year ++ '-' :: twoDigits dt.month ++ '-' :: twoDigits dt.day ++
    'T' :: twoDigits dt.hour ++ ':' :: twoDigits dt.minute ++ ':' :: twoDigits dt.second ++
    (if dt.microsecond = 0 then [] else '.' :: sixDigits dt.microsecond)

/-- Python's `datetime.isoformat()` for a naive datetime. -/
def isoformat (dt : PyDateTime) : String :=
  String.mk (isoformatChars dt)

/-! ## The `/send-email` handler (lines 84–100 of `src/main.py`) -/

/-- Outcome of the handler: a 200 body, or an `HTTPException` carrying a
status code and a detail string. -/
inductive HandlerResult where
  | ok (resp : EmailResponse)
  | httpError (status : Nat) (detail : String)
  deriving DecidableEq

/-- Truthiness check `all([SMTP_SERVER, SMTP_PORT, SMTP_USERNAME,
SMTP_PASSWORD, SMTP_FROM_NAME])` from line 89: every field non-empty. -/
def settingsOk (s : EmailSettings) : Bool :=
  !s.SMTP_SERVER.isEmpty && !s.SMTP_PORT.isEmpty && !s.SMTP_USERNAME.isEmpty &&
    !s.SMTP_PASSWORD.isEmpty && !s.SMTP_FROM_NAME.isEmpty

/-- The f-string subject of line 91:
`f"Order Confirmed - Payment ID: {request.payment_id}"`. -/
def handlerSubject (req : SendEmailRequest) : String :=
  "Order Confirmed - Payment ID: " ++ toString req.payment_id

/-- The MIME message the handler's transport call constructs for a request. -/
def handlerMessage (req : SendEmailRequest) : MimeMessage :=
  builtMessage (handlerSubject req) req.HTML_PAGE req.email_settings

/-- The `send_email` handler body: empty-recipients check (400), settings
truthiness check (400), transport call, then 500 on failure or the 200
`EmailResponse` with a server-generated timestamp.  `dt` is the value of
`datetime.now()` at response construction.  Also returns the transport's
event trace (empty when the transport was never called). -/
def send_email (world : SMTPWorld) (dt : PyDateTime) (req : SendEmailRequest) :
    HandlerResult × List SMTPEvent :=
  if req.recipients.isEmpty then
    (HandlerResult.httpError 400 "At least one recipient is required", [])
  else if !settingsOk req.email_settings then
    (HandlerResult.httpError 400 "All email settings are required", [])
  else
    let res := send_email_smtp world req.recipients (handlerSubject req)
      req.HTML_PAGE req.email_settings
    if res.1 then
      (HandlerResult.ok
        { message := "Email sent successfully"
          sent_to := req.recipients
          timestamp := isoformat dt }, res.2)
    else
      (HandlerResult.httpError 500 "Failed to send email", res.2)

/-! ## Intake validation (pydantic `EmailStr` parsing of the request body) -/

/-- Modelled from the spec: pydantic's `EmailStr` syntactic validation of an
address (the validator itself is library code, not in `src/`): exactly one
`@`, a non-empty local part, a non-empty domain containing a dot, and no
space character. -/
def validEmail (s : String) : Bool :=
  let cs := s.toList
  (cs.count '@' == 1) &&
    !(cs.takeWhile (fun c => c ≠ '@')).isEmpty &&
    !((cs.dropWhile (fun c => c ≠ '@')).tail).isEmpty &&
    ((cs.dropWhile (fun c => c ≠ '@')).tail).contains '.' &&
    !cs.contains ' '

/-! ## ISO-8601 validity (spec-side notion, for claim C2) -/

/-- Numeric value of a decimal digit character. -/
def digitVal (c : Char) : Nat := c.toNat - 48

/-- Modelled from the spec: a valid ISO-8601 timestamp, written over the
character list of the string.  Shape `YYYY-MM-DDTHH:MM:SS` with an optional
`.ffffff` fractional-second suffix, all marked positions decimal digits,
and the calendar/clock fields in range (month 1–12, day 1–31, hour ≤ 23,
minute and second ≤ 59). -/
def isValidISO8601Chars : List Char → Bool
  | y1 :: y2 :: y3 :: y4 :: c1 :: mo1 :: mo2 :: c2 :: d1 :: d2 :: c3 ::
      h1 :: h2 :: c4 :: mi1 :: mi2 :: c5 :: se1 :: se2 :: rest =>
    ([y1, y2, y3, y4, mo1, mo2, d1, d2, h1, h2, mi1, mi2, se1, se2].all Char.isDigit) &&
    (c1 == '-') && (c2 == '-') && (c3 == 'T') && (c4 == ':') && (c5 == ':') &&
    (let mo := digitVal mo1 * 10 + digitVal mo2
     let d := digitVal d1 * 10 + digitVal d2
     let h := digitVal h1 * 10 + digitVal h2
     let mi := digitVal mi1 * 10 + digitVal mi2
     let se := digitVal se1 * 10 + digitVal se2
     (1 ≤ mo && mo ≤ 12) && (1 ≤ d && d ≤ 31) && h ≤ 23 && mi ≤ 59 && se ≤ 59) &&
    (match rest with
     | [] => true
     | c :: f1 :: f2 :: f3 :: f4 :: f5 :: f6 :: [] =>
       (c == '.') && [f1, f2, f3, f4, f5, f6].all Char.isDigit
     | _ => false)
  | _ => false

/-- Modelled from the spec: a valid ISO-8601 timestamp string. -/
def isValidISO8601 (s : String) : Bool :=
  isValidISO8601Chars s.toList

/-- Result of the full request path including body parsing: FastAPI rejects
the request with a validation error before the handler runs when any
`EmailStr` field fails to validate. -/
inductive IntakeResult where
  | rejected
  | handled (res : HandlerResult × List SMTPEvent)
  deriving DecidableEq

/-- Modelled from the spec: FastAPI/pydantic intake.  The body parses into a
`SendEmailRequest` only if every recipient and the customer email are
syntactically valid addresses; otherwise the request is rejected at intake
and the handler (and hence the transport) never runs. -/
def processRequest (world : SMTPWorld) (dt : PyDateTime) (req : SendEmailRequest) :
    IntakeResult :=
  if req.recipients.all validEmail && validEmail req.customer_details.email then
    IntakeResult.handled (send_email world dt req)
  else
    IntakeResult.rejected

/-! ## Session-order index and concrete sample values -/

/-- Position of each SMTP step in the protocol order of `send_email_smtp`:
connect, then STARTTLS, then login, then sendmail, then close. -/
def orderIndex : SMTPEvent → Nat
  | SMTPEvent.connect _ _ => 0
  | SMTPEvent.starttls => 1
  | SMTPEvent.login _ _ => 2
  | SMTPEvent.sendmail _ _ _ => 3
  | SMTPEvent.close => 4

/-- A world in which every SMTP step succeeds. -/
def worldAllOk : SMTPWorld := ⟨true, true, true, true⟩

/-- A world in which authentication raises. -/
def worldLoginFails : SMTPWorld := ⟨true, true, false, true⟩

/-- A complete, well-formed settings object. -/
def sampleSettings : EmailSettings :=
  ⟨"smtp.example.com", "587", "relay@example.com", "hunter2", "Bookings"⟩

/-- Sample customer details with a valid address. -/
def sampleCustomer : CustomerDetails := ⟨"Ada", "ada@example.com", "555-0100"⟩

/-- Sample booking details. -/
def sampleBooking : BookingDetails := ⟨"Suite 7", "2026-10-12 to 2026-10-14"⟩

/-- A well-formed request with two recipients. -/
def sampleRequest : SendEmailRequest :=
  ⟨["guest1@example.com", "guest2@example.org"], 4711, 1760200000,
    sampleCustomer, sampleBooking, "<html><body>ok</body></html>", sampleSettings⟩

/-- A sample server-side `datetime.now()` value. -/
def sampleDT : PyDateTime := ⟨2026, 10, 12, 9, 30, 0, 0⟩

/-! ## Helper lemmas -/

/-- `Nat.digitChar` of a value below ten is a decimal digit character. -/
theorem digitChar_isDigit {n : Nat} (h : n < 10) : (Nat.digitChar n).isDigit = true := by
  interval_cases n <;> decide

/-- Code point of `Nat.digitChar` for a value below ten. -/
theorem digitChar_toNat {n : Nat} (h : n < 10) : (Nat.digitChar n).toNat = 48 + n := by
  interval_cases n <;> decide

/-- `digitVal` inverts `Nat.digitChar` below ten. -/
theorem digitVal_digitChar {n : Nat} (h : n < 10) : digitVal (Nat.digitChar n) = n := by
  unfold digitVal
  rw [digitChar_toNat h]
  omega

/-- Any `sendmail` event emitted by the transport carries the settings
username as envelope sender, the full input recipient list as envelope
recipients, and the built MIME message. -/
theorem sendmail_mem_trace {world : SMTPWorld} {to_emails : List String}
    {subject html : String} {s : EmailSettings} {f : String} {tos : List String}
    {m : MimeMessage}
    (h : SMTPEvent.sendmail f tos m ∈ (send_email_smtp world to_emails subject html s).2) :
    f = s.SMTP_USERNAME ∧ tos = to_emails ∧ m = builtMessage subject html s := by
  unfold send_email_smtp at h
  split at h
  · simp at h
  · repeat' split at h
    all_goals simp_all

/-- A string accepted by `validEmail` contains an `@`. -/
theorem validEmail_mem_at {s : String} (h : validEmail s = true) : '@' ∈ s.toList := by
  unfold validEmail at h
  simp only [Bool.and_eq_true, beq_iff_eq] at h
  exact List.count_pos_iff.mp (by omega : 0 < s.toList.count '@')

/-- When validation passes, the handler's trace is the transport's trace. -/
theorem send_email_trace {world : SMTPWorld} {dt : PyDateTime} {req : SendEmailRequest}
    (h1 : req.recipients.isEmpty = false) (h2 : settingsOk req.email_settings = true) :
    (send_email world dt req).2 =
      (send_email_smtp world req.recipients (handlerSubject req)
        req.HTML_PAGE req.email_settings).2 := by
  unfold send_email
  simp only [h1, h2, Bool.not_true, Bool.false_eq_true, if_false, if_true]
  split <;> rfl

/-- `datetime.isoformat()` output of an in-range datetime is a valid
ISO-8601 string. -/
theorem isoformat_isValid {dt : PyDateTime} (hy : dt.year ≤ 9999)
    (hmo1 : 1 ≤ dt.month) (hmo2 : dt.month ≤ 12) (hd1 : 1 ≤ dt.day) (hd2 : dt.day ≤ 31)
    (hh : dt.hour ≤ 23) (hmi : dt.minute ≤ 59) (hse : dt.second ≤ 59)
    (hus : dt.microsecond < 1000000) :
    isValidISO8601 (isoformat dt) = true := by
  have hl : (isoformat dt).toList = isoformatChars dt := rfl
  rw [isValidISO8601, hl]
  unfold isoformatChars fourDigits twoDigits sixDigits
  by_cases hz : dt.microsecond = 0 <;>
    simp only [hz, if_true, if_false, ite_true, ite_false, reduceIte,
      List.cons_append, List.nil_append] <;>
    simp only [isValidISO8601Chars, List.all_cons, List.all_nil, Bool.and_eq_true,
      beq_iff_eq, decide_eq_true_eq, Bool.and_true, and_true, true_and] <;>
    simp (disch := omega) only [digitVal_digitChar, digitChar_isDigit] <;>
    simp only [true_and, and_true] <;>
    omega

/-- Any `sendmail` event in the handler's trace carries the settings
username as envelope sender, the request's full recipient list as envelope
recipients, and the handler-built MIME message. -/
theorem sendmail_mem_handler {world : SMTPWorld} {dt : PyDateTime}
    {req : SendEmailRequest} {f : String} {tos : List String} {m : MimeMessage}
    (h : SMTPEvent.sendmail f tos m ∈ (send_email world dt req).2) :
    f = req.email_settings.SMTP_USERNAME ∧ tos = req.recipients ∧
    m = handlerMessage req := by
  have htr : SMTPEvent.sendmail f tos m ∈
      (send_email_smtp world req.recipients (handlerSubject req)
        req.HTML_PAGE req.email_settings).2 := by
    by_cases h1 : req.recipients.isEmpty
    · unfold send_email at h
      simp [h1] at h
    · by_cases h2 : settingsOk req.email_settings
      · rwa [send_email_trace (by simpa using h1) h2] at h
      · have h2f : settingsOk req.email_settings = false := by simpa using h2
        unfold send_email at h
        simp [h1, h2f] at h
  exact sendmail_mem_trace htr

/-! ## Claims -/

/-- C1: every message the handler hands to the transport submission step
has To header exactly "undisclosed-recipients:;", which contains no
(syntactically valid) recipient address as a substring, while the envelope
recipient list equals the input recipients exactly and the envelope sender
is `SMTP_USERNAME`. -/
theorem header_hides_recipients (world : SMTPWorld) (dt : PyDateTime)
    (req : SendEmailRequest) (f : String) (tos : List String) (m : MimeMessage)
    (h : SMTPEvent.sendmail f tos m ∈ (send_email world dt req).2) :
    m.toHeader = "undisclosed-recipients:;" ∧ tos = req.recipients ∧
    f = req.email_settings.SMTP_USERNAME ∧
    ∀ r ∈ req.recipients, validEmail r = true → ¬ (r.toList <:+: m.toHeader.toList) := by
  obtain ⟨hf, htos, hm⟩ := sendmail_mem_handler h
  refine ⟨by rw [hm]; rfl, htos, hf, ?_⟩
  intro r hr hv hinf
  have hat : '@' ∈ m.toHeader.toList := hinf.subset (validEmail_mem_at hv)
  rw [hm] at hat
  have hat2 : '@' ∈ "undisclosed-recipients:;".toList := hat
  exact absurd hat2 (by decide)

/-- Witness for C1: in an all-succeeding world the sample request's trace
contains the submission event, and the theorem applies to it. -/
theorem header_hides_recipients_witness :
    (handlerMessage sampleRequest).toHeader = "undisclosed-recipients:;" ∧
    sampleRequest.recipients = sampleRequest.recipients ∧
    sampleSettings.SMTP_USERNAME = sampleRequest.email_settings.SMTP_USERNAME ∧
    ∀ r ∈ sampleRequest.recipients, validEmail r = true →
      ¬ (r.toList <:+: (handlerMessage sampleRequest).toHeader.toList) :=
  header_hides_recipients worldAllOk sampleDT sampleRequest
    sampleSettings.SMTP_USERNAME sampleRequest.recipients
    (handlerMessage sampleRequest) (by decide)

/-- C2: for a well-formed request whose transport call succeeds, the
endpoint answers 200 with message "Email sent successfully", `sent_to`
exactly the input recipients, and the server-generated
`datetime.now().isoformat()` timestamp, which is a valid ISO-8601 string
for any in-range datetime. -/
theorem success_response (world : SMTPWorld) (dt : PyDateTime) (req : SendEmailRequest)
    (hr : req.recipients ≠ []) (hs : settingsOk req.email_settings = true)
    (hok : (send_email_smtp world req.recipients (handlerSubject req)
      req.HTML_PAGE req.email_settings).1 = true)
    (hy : dt.year ≤ 9999) (hmo1 : 1 ≤ dt.month) (hmo2 : dt.month ≤ 12)
    (hd1 : 1 ≤ dt.day) (hd2 : dt.day ≤ 31) (hh : dt.hour ≤ 23)
    (hmi : dt.minute ≤ 59) (hse : dt.second ≤ 59) (hus : dt.microsecond < 1000000) :
    (send_email world dt req).1 =
      HandlerResult.ok ⟨"Email sent successfully", req.recipients, isoformat dt⟩ ∧
    isValidISO8601 (isoformat dt) = true := by
  have h1 : req.recipients.isEmpty = false := by simp [List.isEmpty_iff, hr]
  refine ⟨?_, isoformat_isValid hy hmo1 hmo2 hd1 hd2 hh hmi hse hus⟩
  unfold send_email
  simp [h1, hs, hok]

/-- Witness for C2 at the sample request and a concrete datetime. -/
theorem success_response_witness :
    (send_email worldAllOk sampleDT sampleRequest).1 =
      HandlerResult.ok
        ⟨"Email sent successfully", sampleRequest.recipients, isoformat sampleDT⟩ ∧
    isValidISO8601 (isoformat sampleDT) = true :=
  success_response worldAllOk sampleDT sampleRequest (by decide) (by decide) rfl
    (by decide) (by decide) (by decide) (by decide) (by decide) (by decide)
    (by decide) (by decide) (by decide)

/-- C3: if any SMTP step (connect, STARTTLS, login, submission) raises, the
transport — whose `except Exception` makes it total with a plain boolean
result, never a propagated exception or per-recipient status — returns
`false`, and the handler answers HTTP 500 with detail exactly
"Failed to send email". -/
theorem transport_failure_gives_500 (world : SMTPWorld) (dt : PyDateTime)
    (req : SendEmailRequest) (hr : req.recipients ≠ [])
    (hs : settingsOk req.email_settings = true)
    (hfail : world.connectOk = false ∨ world.starttlsOk = false ∨
      world.loginOk = false ∨ world.sendOk = false) :
    (send_email_smtp world req.recipients (handlerSubject req)
        req.HTML_PAGE req.email_settings).1 = false ∧
    (send_email world dt req).1 = HandlerResult.httpError 500 "Failed to send email" := by
  have h1 : req.recipients.isEmpty = false := by
    simp [List.isEmpty_iff, hr]
  have hsmtp : (send_email_smtp world req.recipients (handlerSubject req)
      req.HTML_PAGE req.email_settings).1 = false := by
    unfold send_email_smtp
    rcases hfail with h | h | h | h <;>
      · split
        · rfl
        · repeat' split
          all_goals simp_all
  refine ⟨hsmtp, ?_⟩
  unfold send_email
  simp [h1, hs, hsmtp]

/-- Witness for C3 at a concrete request in a world where login raises. -/
theorem transport_failure_gives_500_witness :
    (send_email_smtp worldLoginFails sampleRequest.recipients
        (handlerSubject sampleRequest) sampleRequest.HTML_PAGE
        sampleRequest.email_settings).1 = false ∧
    (send_email worldLoginFails sampleDT sampleRequest).1 =
      HandlerResult.httpError 500 "Failed to send email" :=
  transport_failure_gives_500 worldLoginFails sampleDT sampleRequest
    (by decide) (by decide) (Or.inr (Or.inr (Or.inl rfl)))

/-- C4: a parsed request with an empty recipients list always yields
HTTP 400 with detail "At least one recipient is required", regardless of
every other field, and the transport is never called (empty trace). -/
theorem empty_recipients_gives_400 (world : SMTPWorld) (dt : PyDateTime)
    (req : SendEmailRequest) (h : req.recipients = []) :
    send_email world dt req =
      (HandlerResult.httpError 400 "At least one recipient is required", []) := by
  unfold send_email
  simp [h]

/-- Witness for C4 at a concrete request. -/
theorem empty_recipients_gives_400_witness :
    send_email worldAllOk sampleDT { sampleRequest with recipients := [] } =
      (HandlerResult.httpError 400 "At least one recipient is required", []) :=
  empty_recipients_gives_400 worldAllOk sampleDT _ rfl

/-- C5 counterexample: a request with an empty `SMTP_SERVER` (one of the
five settings) but also an empty recipients list is answered 400 with the
recipients detail, not with "All email settings are required", so the
claim as stated fails on this input. -/
theorem settings_400_counterexample :
    ({ sampleSettings with SMTP_SERVER := "" } : EmailSettings).SMTP_SERVER = "" ∧
    send_email worldAllOk sampleDT
        { sampleRequest with
          recipients := [],
          email_settings := { sampleSettings with SMTP_SERVER := "" } } =
      (HandlerResult.httpError 400 "At least one recipient is required", []) ∧
    (HandlerResult.httpError 400 "At least one recipient is required" ≠
      HandlerResult.httpError 400 "All email settings are required") := by
  refine ⟨rfl, ?_, by decide⟩
  rfl

/-- C5 (amended): provided recipients is non-empty, a request with any one
of the five settings fields empty yields HTTP 400 with detail
"All email settings are required" and the transport is never called. -/
theorem settings_400_after_recipients (world : SMTPWorld) (dt : PyDateTime)
    (req : SendEmailRequest) (hr : req.recipients ≠ [])
    (hs : req.email_settings.SMTP_SERVER = "" ∨ req.email_settings.SMTP_PORT = "" ∨
      req.email_settings.SMTP_USERNAME = "" ∨ req.email_settings.SMTP_PASSWORD = "" ∨
      req.email_settings.SMTP_FROM_NAME = "") :
    send_email world dt req =
      (HandlerResult.httpError 400 "All email settings are required", []) := by
  have h1 : req.recipients.isEmpty = false := by
    simp [List.isEmpty_iff, hr]
  have h2 : settingsOk req.email_settings = false := by
    unfold settingsOk
    rcases hs with h | h | h | h | h <;> rw [h] <;>
      simp [show ("" : String).isEmpty = true from rfl]
  unfold send_email
  simp [h1, h2]

/-- Witness for C5 (amended) at a concrete request. -/
theorem settings_400_after_recipients_witness :
    send_email worldAllOk sampleDT
        { sampleRequest with
          email_settings := { sampleSettings with SMTP_PASSWORD := "" } } =
      (HandlerResult.httpError 400 "All email settings are required", []) :=
  settings_400_after_recipients worldAllOk sampleDT _ (by decide)
    (Or.inr (Or.inr (Or.inr (Or.inl rfl))))

/-- C6: for a request that passes validation, the subject of the
constructed message is exactly "Order Confirmed - Payment ID: " followed by
the decimal rendering of the integer `payment_id`, both as built and as it
appears in any submission event. -/
theorem subject_format (world : SMTPWorld) (dt : PyDateTime) (req : SendEmailRequest)
    (hr : req.recipients ≠ []) (hs : settingsOk req.email_settings = true) :
    (handlerMessage req).subject =
      "Order Confirmed - Payment ID: " ++ toString req.payment_id ∧
    ∀ f tos m, SMTPEvent.sendmail f tos m ∈ (send_email world dt req).2 →
      m.subject = "Order Confirmed - Payment ID: " ++ toString req.payment_id := by
  refine ⟨rfl, ?_⟩
  intro f tos m h
  have h1 : req.recipients.isEmpty = false := by simp [List.isEmpty_iff, hr]
  rw [send_email_trace h1 hs] at h
  obtain ⟨-, -, hm⟩ := sendmail_mem_trace h
  rw [hm]
  rfl

/-- Witness for C6 at the sample request. -/
theorem subject_format_witness :
    (handlerMessage sampleRequest).subject =
      "Order Confirmed - Payment ID: " ++ toString sampleRequest.payment_id ∧
    ∀ f tos m, SMTPEvent.sendmail f tos m ∈ (send_email worldAllOk sampleDT sampleRequest).2 →
      m.subject = "Order Confirmed - Payment ID: " ++ toString sampleRequest.payment_id :=
  subject_format worldAllOk sampleDT sampleRequest (by decide) (by decide)

/-- C7: on every transport invocation the completed SMTP steps appear in
the strict protocol order connect, STARTTLS, login, sendmail, close; any
session that authenticated or submitted a message did STARTTLS first; and
whenever a connection was opened the trace ends with the close performed by
the context manager on every exit path. -/
theorem smtp_step_order (world : SMTPWorld) (to_emails : List String)
    (subject html : String) (s : EmailSettings) :
    List.Chain' (fun a b => orderIndex a < orderIndex b)
      (send_email_smtp world to_emails subject html s).2 ∧
    ((∃ u p, SMTPEvent.login u p ∈ (send_email_smtp world to_emails subject html s).2) →
      SMTPEvent.starttls ∈ (send_email_smtp world to_emails subject html s).2) ∧
    ((∃ f tos m, SMTPEvent.sendmail f tos m ∈
        (send_email_smtp world to_emails subject html s).2) →
      SMTPEvent.starttls ∈ (send_email_smtp world to_emails subject html s).2) ∧
    ((∃ h p, SMTPEvent.connect h p ∈ (send_email_smtp world to_emails subject html s).2) →
      ((send_email_smtp world to_emails subject html s).2).getLast? =
        some SMTPEvent.close) := by
  unfold send_email_smtp
  split
  · simp
  · repeat' split
    all_goals simp [orderIndex]

/-- Witness for C7 at the sample invocation. -/
theorem smtp_step_order_witness :
    List.Chain' (fun a b => orderIndex a < orderIndex b)
      (send_email_smtp worldAllOk sampleRequest.recipients (handlerSubject sampleRequest)
        sampleRequest.HTML_PAGE sampleSettings).2 ∧
    ((∃ u p, SMTPEvent.login u p ∈ (send_email_smtp worldAllOk sampleRequest.recipients
        (handlerSubject sampleRequest) sampleRequest.HTML_PAGE sampleSettings).2) →
      SMTPEvent.starttls ∈ (send_email_smtp worldAllOk sampleRequest.recipients
        (handlerSubject sampleRequest) sampleRequest.HTML_PAGE sampleSettings).2) ∧
    ((∃ f tos m, SMTPEvent.sendmail f tos m ∈ (send_email_smtp worldAllOk
        sampleRequest.recipients (handlerSubject sampleRequest)
        sampleRequest.HTML_PAGE sampleSettings).2) →
      SMTPEvent.starttls ∈ (send_email_smtp worldAllOk sampleRequest.recipients
        (handlerSubject sampleRequest) sampleRequest.HTML_PAGE sampleSettings).2) ∧
    ((∃ h p, SMTPEvent.connect h p ∈ (send_email_smtp worldAllOk sampleRequest.recipients
        (handlerSubject sampleRequest) sampleRequest.HTML_PAGE sampleSettings).2) →
      ((send_email_smtp worldAllOk sampleRequest.recipients (handlerSubject sampleRequest)
        sampleRequest.HTML_PAGE sampleSettings).2).getLast? = some SMTPEvent.close) :=
  smtp_step_order worldAllOk sampleRequest.recipients (handlerSubject sampleRequest)
    sampleRequest.HTML_PAGE sampleSettings

/-- C8: a request containing a syntactically invalid recipient address is
rejected at intake before the handler or transport runs, and whenever a
request is handled, every submission delivers to the full recipients list
(nothing is silently dropped). -/
theorem invalid_recipient_rejected (world : SMTPWorld) (dt : PyDateTime)
    (req : SendEmailRequest) :
    ((∃ r ∈ req.recipients, validEmail r = false) →
      processRequest world dt req = IntakeResult.rejected) ∧
    (∀ res, processRequest world dt req = IntakeResult.handled res →
      ∀ f tos m, SMTPEvent.sendmail f tos m ∈ res.2 → tos = req.recipients) := by
  constructor
  · rintro ⟨r, hr, hv⟩
    unfold processRequest
    have hall : req.recipients.all validEmail = false := by
      rw [List.all_eq_false]
      exact ⟨r, hr, by simp [hv]⟩
    simp [hall]
  · intro res hres f tos m hm
    unfold processRequest at hres
    split at hres
    · cases hres
      exact (sendmail_mem_handler hm).2.1
    · cases hres

/-- Witness for C8: a request with a malformed recipient is rejected at
intake, and any handled submission uses its full list. -/
theorem invalid_recipient_rejected_witness :
    ((∃ r ∈ ({ sampleRequest with
        recipients := ["guest1@example.com", "not-an-email"] } : SendEmailRequest).recipients,
        validEmail r = false) →
      processRequest worldAllOk sampleDT
          { sampleRequest with recipients := ["guest1@example.com", "not-an-email"] } =
        IntakeResult.rejected) ∧
    (∀ res, processRequest worldAllOk sampleDT
          { sampleRequest with recipients := ["guest1@example.com", "not-an-email"] } =
        IntakeResult.handled res →
      ∀ f tos m, SMTPEvent.sendmail f tos m ∈ res.2 →
        tos = ({ sampleRequest with
          recipients := ["guest1@example.com", "not-an-email"] } : SendEmailRequest).recipients) :=
  invalid_recipient_rejected worldAllOk sampleDT
    { sampleRequest with recipients := ["guest1@example.com", "not-an-email"] }

/-- C9: the request's `timestamp` field is dead input — changing it changes
neither the handler's outcome and trace nor the built message — and the
timestamp in a 200 response is the server's `datetime.now().isoformat()`,
not the request field. -/
theorem timestamp_dead_input (world : SMTPWorld) (dt : PyDateTime)
    (req : SendEmailRequest) (t : Int) :
    send_email world dt { req with timestamp := t } = send_email world dt req ∧
    handlerMessage { req with timestamp := t } = handlerMessage req ∧
    ∀ resp tr, send_email world dt req = (HandlerResult.ok resp, tr) →
      resp.timestamp = isoformat dt := by
  refine ⟨rfl, rfl, ?_⟩
  intro resp tr h
  unfold send_email at h
  split at h
  · simp at h
  · split at h
    · simp at h
    · dsimp only at h
      split at h
      · have hfst := congrArg Prod.fst h
        simp only [HandlerResult.ok.injEq] at hfst
        rw [← hfst]
      · simp at h

/-- Witness for C9 at the sample request. -/
theorem timestamp_dead_input_witness :
    send_email worldAllOk sampleDT { sampleRequest with timestamp := 0 } =
      send_email worldAllOk sampleDT sampleRequest ∧
    handlerMessage { sampleRequest with timestamp := 0 } = handlerMessage sampleRequest ∧
    ∀ resp tr, send_email worldAllOk sampleDT sampleRequest = (HandlerResult.ok resp, tr) →
      resp.timestamp = isoformat sampleDT :=
  timestamp_dead_input worldAllOk sampleDT sampleRequest 0

/-- C10 counterexample: a request whose `SMTP_PORT` is the non-empty,
non-numeric string "abc" but whose `SMTP_USERNAME` is empty is rejected by
the settings validation with HTTP 400, not answered 500, so the claim as
stated fails on this input. -/
theorem bad_port_counterexample :
    ({ sampleSettings with SMTP_PORT := "abc", SMTP_USERNAME := "" } : EmailSettings).SMTP_PORT ≠ "" ∧
    pythonInt "abc" = none ∧
    send_email worldAllOk sampleDT
        { sampleRequest with
          email_settings := { sampleSettings with SMTP_PORT := "abc", SMTP_USERNAME := "" } } =
      (HandlerResult.httpError 400 "All email settings are required", []) := by
  refine ⟨by decide, rfl, rfl⟩

/-- C10 (amended): for a request that passes both validation checks
(non-empty recipients, all five settings non-empty) but whose `SMTP_PORT`
is not a valid decimal numeral, the `int()` failure is absorbed by the
transport's catch-all, so the transport reports `false` and the endpoint
answers HTTP 500 with detail exactly "Failed to send email" rather than a
validation error. -/
theorem bad_port_gives_500 (world : SMTPWorld) (dt : PyDateTime)
    (req : SendEmailRequest) (hr : req.recipients ≠ [])
    (hs : settingsOk req.email_settings = true)
    (hp : pythonInt req.email_settings.SMTP_PORT = none) :
    (send_email_smtp world req.recipients (handlerSubject req)
        req.HTML_PAGE req.email_settings).1 = false ∧
    (send_email world dt req).1 = HandlerResult.httpError 500 "Failed to send email" := by
  have h1 : req.recipients.isEmpty = false := by
    simp [List.isEmpty_iff, hr]
  have hsmtp : (send_email_smtp world req.recipients (handlerSubject req)
      req.HTML_PAGE req.email_settings).1 = false := by
    unfold send_email_smtp
    rw [hp]
  refine ⟨hsmtp, ?_⟩
  unfold send_email
  simp [h1, hs, hsmtp]

/-- Witness for C10 (amended): `SMTP_PORT = "abc"` with otherwise complete
settings yields the 500 outcome. -/
theorem bad_port_gives_500_witness :
    (send_email_smtp worldAllOk
        ({ sampleRequest with
           email_settings := { sampleSettings with SMTP_PORT := "abc" } } : SendEmailRequest).recipients
        (handlerSubject { sampleRequest with
           email_settings := { sampleSettings with SMTP_PORT := "abc" } })
        ({ sampleRequest with
           email_settings := { sampleSettings with SMTP_PORT := "abc" } } : SendEmailRequest).HTML_PAGE
        { sampleSettings with SMTP_PORT := "abc" }).1 = false ∧
    (send_email worldAllOk sampleDT
        { sampleRequest with
          email_settings := { sampleSettings with SMTP_PORT := "abc" } }).1 =
      HandlerResult.httpError 500 "Failed to send email" :=
  bad_port_gives_500 worldAllOk sampleDT
    { sampleRequest with email_settings := { sampleSettings with SMTP_PORT := "abc" } }
    (by decide) (by decide) rfl
